import Mathlib

/-!
Verification development for the data-plane subsystem of the repository:
the watermark byte buffer (`common/buffer/watermark_buffer.h`) and the
MongoDB proxy filter (`common/mongo/proxy.h`).  The implementation files
are not part of the excerpt; the models below are built from the
specification (spec.md §§3–7) and are pinned, at every point the two
disagree, by the repository's own tests
(`test/common/buffer/watermark_buffer_test.cc`,
`test/common/mongo/proxy_test.cc`), which exercise the real code.
-/

namespace Envoy

namespace Buffer

/-- Modelled from the spec: `WatermarkBuffer` (spec §4.1), whose
implementation `common/buffer/watermark_buffer.{h,cc}` is absent from the
excerpt.  State: current length, low threshold `L`, high threshold `H`
(spec §3 requires `0 < L ≤ H`), the `above_high` latch, and the two
callback-invocation counters (the tests observe the callbacks only by
counting their invocations). -/
structure WatermarkBuffer where
  len : Nat
  low : Nat
  high : Nat
  aboveHigh : Bool
  highCalls : Nat
  lowCalls : Nat
  deriving Repr, DecidableEq

namespace WatermarkBuffer

/-- A fresh buffer with thresholds `(L, H)` as built by the test fixture:
empty, latch clear, no callbacks fired yet. -/
def fresh (l h : Nat) : WatermarkBuffer :=
  { len := 0, low := l, high := h, aboveHigh := false, highCalls := 0, lowCalls := 0 }

/-- Modelled from the spec: the high-edge check run after any operation
that can raise the length.  The high callback fires on the operation that
takes length strictly above `H` while `above_high` was false
(spec §4.1 edge rule; `WatermarkBufferTest.AddChar` pins `length = H` as
not firing). -/
def checkHigh (b : WatermarkBuffer) : WatermarkBuffer :=
  if b.aboveHigh = false ∧ b.high < b.len then
    { b with aboveHigh := true, highCalls := b.highCalls + 1 }
  else b

/-- Modelled from the spec: the low-edge check run after any operation
that can lower the length.  The spec's edge rule says the low callback
fires when length reaches `≤ L` while the latch is set, but the
repository's tests pin the comparison as strict: with `L = 5`,
draining to length 5 does not fire and draining to 4 does
(`WatermarkBufferTest.Drain`), and `setWatermarks(9, 20)` at length 9
does not fire while `setWatermarks(10, 20)` does
(`WatermarkBufferTest.MoveWatermarks`).  So the check fires exactly when
the latch is set and length is strictly below `L`. -/
def checkLow (b : WatermarkBuffer) : WatermarkBuffer :=
  if b.aboveHigh = true ∧ b.len < b.low then
    { b with aboveHigh := false, lowCalls := b.lowCalls + 1 }
  else b

/-- Modelled from the spec: `add` appends `n` bytes and may raise the
high edge (spec §4.1 operation table). -/
def add (n : Nat) (b : WatermarkBuffer) : WatermarkBuffer :=
  checkHigh { b with len := b.len + n }

/-- Modelled from the spec: `drain` discards `n` bytes from the front and
may lower the low edge (spec §4.1 operation table). -/
def drain (n : Nat) (b : WatermarkBuffer) : WatermarkBuffer :=
  checkLow { b with len := b.len - n }

/-- Modelled from the spec: `setWatermarks(L', H')` installs the new
thresholds and re-evaluates both edges against them
(spec §4.1 reconfiguration semantics). -/
def setWatermarks (l h : Nat) (b : WatermarkBuffer) : WatermarkBuffer :=
  checkLow (checkHigh { b with low := l, high := h })

/-- Modelled from the spec: `dst.move(src, n)` transfers
`min n src.len` bytes and then re-evaluates the destination's high edge
and the source's low edge (spec §4.1: both may fire on a single
operation; pinned by `WatermarkBufferTest.MoveBackWithWatermarks`).
Returns `(dst', src')`. -/
def move (dst src : WatermarkBuffer) (n : Nat) :
    WatermarkBuffer × WatermarkBuffer :=
  let k := min n src.len
  (checkHigh { dst with len := dst.len + k },
   checkLow { src with len := src.len - k })

/-- Modelled from the spec: `dst.move(src)` transfers the whole source
buffer. -/
def moveAll (dst src : WatermarkBuffer) : WatermarkBuffer × WatermarkBuffer :=
  move dst src src.len

/-- One abstract operation on a single watermark buffer, as visible from
that buffer's side (spec §4.1 operation table): `add` also stands for
`commit` and `read(fd)`, `drain` also stands for `write(fd)`, `moveIn`
is the destination side of a `move` and `moveOut` the source side. -/
inductive Op where
  | add (n : Nat)
  | drain (n : Nat)
  | moveIn (n : Nat)
  | moveOut (n : Nat)
  | setWatermarks (l h : Nat)
  deriving Repr, DecidableEq

/-- Apply one operation to a buffer. -/
def step (b : WatermarkBuffer) : Op → WatermarkBuffer
  | .add n => add n b
  | .drain n => drain n b
  | .moveIn n => checkHigh { b with len := b.len + n }
  | .moveOut n => checkLow { b with len := b.len - n }
  | .setWatermarks l h => setWatermarks l h b

/-- Apply a sequence of operations left to right. -/
def run (b : WatermarkBuffer) (ops : List Op) : WatermarkBuffer :=
  ops.foldl step b

/-- The latch/counter coupling of spec (W1): the latch is set exactly
when the high counter is one ahead of the low counter, and otherwise the
two counters are equal. -/
def counterInv (b : WatermarkBuffer) : Prop :=
  (b.aboveHigh = true → b.highCalls = b.lowCalls + 1) ∧
  (b.aboveHigh = false → b.highCalls = b.lowCalls)

end WatermarkBuffer

end Buffer

namespace Mongo

/-- Modelled from the spec: a BSON value as far as the proxy inspects it
(spec §4.2, §9).  Only the shapes the filter's stat derivation looks at
are distinguished: scalars, strings, sub-documents and arrays (an array
is a sub-document whose keys are "0","1",…). -/
inductive BsonValue where
  | int32 (n : Int)
  | int64 (n : Int)
  | str (s : String)
  | doc (elems : List (String × BsonValue))
  | arr (elems : List (String × BsonValue))

/-- A BSON document: a list of key/value elements (spec §9: "a list of
elements where an element is (key, tagged value)"). -/
abbrev BsonDocument := List (String × BsonValue)

/-- First value bound to key `k` in a document, if any. -/
def findKey (d : BsonDocument) (k : String) : Option BsonValue :=
  (d.find? (fun e => e.1 == k)).map (fun e => e.2)

/-- Whether the document binds key `k` at top level. -/
def hasKey (d : BsonDocument) (k : String) : Bool :=
  (findKey d k).isSome

/-- Whether a value is a document (or array) holding an `$in` key — the
shape of an `_id` multi-get predicate (spec §4.5,
`MongoProxyFilterTest.MultiGet`). -/
def hasInKey : BsonValue → Bool
  | .doc es => es.any (fun e => e.1 == "$in")
  | .arr es => es.any (fun e => e.1 == "$in")
  | _ => false

/-- Query classification used by stat derivation (spec §4.5 and
glossary): no `_id` predicate → scatter get (no shard key); `_id`
against `$in` → multi get; otherwise a primary-key get. -/
inductive QueryType where
  | scatterGet
  | multiGet
  | primaryKeyGet
  deriving Repr, DecidableEq

/-- Classify a query document (spec §4.5). -/
def queryType (q : BsonDocument) : QueryType :=
  match findKey q "_id" with
  | none => .scatterGet
  | some v => if hasInKey v then .multiGet else .primaryKeyGet

/-- Characters after the first `'.'`, or `none` when there is no dot. -/
def afterFirstDot : List Char → Option (List Char)
  | [] => none
  | c :: cs => if c = '.' then some cs else afterFirstDot cs

/-- The collection part of a full collection name `"db.coll"`: everything
after the first dot (spec §3; a name with no dot is returned whole). -/
def collectionOf (fullName : String) : String :=
  match afterFirstDot fullName.data with
  | some rest => { data := rest }
  | none => fullName

/-- The command name of a `db.$cmd` query: the first key of the query
document (spec §4.5), or `""` for an empty document. -/
def commandName (q : BsonDocument) : String :=
  match q with
  | [] => ""
  | e :: _ => e.1

/-- `OP_QUERY` message fields the filter reads (spec §3). -/
structure QueryMessage where
  requestId : Int
  responseTo : Int
  flags : Nat
  fullCollectionName : String
  query : BsonDocument

/-- `OP_GET_MORE` message fields the filter reads (spec §3). -/
structure GetMoreMessage where
  requestId : Int
  responseTo : Int
  fullCollectionName : String
  cursorId : Int

/-- `OP_INSERT` message fields the filter reads (spec §3). -/
structure InsertMessage where
  requestId : Int
  responseTo : Int
  fullCollectionName : String
  documents : List BsonDocument

/-- `OP_KILL_CURSORS` message fields the filter reads (spec §3). -/
structure KillCursorsMessage where
  requestId : Int
  responseTo : Int
  numberOfCursorIds : Nat
  cursorIds : List Int

/-- `OP_REPLY` message fields the filter reads (spec §3). -/
structure ReplyMessage where
  requestId : Int
  responseTo : Int
  flags : Nat
  cursorId : Int
  documents : List BsonDocument

/-- A decoded MongoDB message delivered through the decoder callbacks
(spec §4.3, §9: capability set {decodeQuery, decodeGetMore,
decodeInsert, decodeKillCursors, decodeReply}). -/
inductive Message where
  | query (m : QueryMessage)
  | getMore (m : GetMoreMessage)
  | insert (m : InsertMessage)
  | killCursors (m : KillCursorsMessage)
  | reply (m : ReplyMessage)

/-- Modelled from the spec: the fixed-name counters and the
`op_query_active` gauge of the proxy's stats block (spec §4.5), whose
implementation `common/mongo/proxy.{h,cc}` is absent from the excerpt.
Counters are invocation counts; the gauge is a plain natural. -/
structure MongoProxyStats where
  op_get_more : Nat
  op_insert : Nat
  op_kill_cursors : Nat
  op_query : Nat
  op_query_tailable_cursor : Nat
  op_query_no_cursor_timeout : Nat
  op_query_await_data : Nat
  op_query_exhaust : Nat
  op_query_no_max_time : Nat
  op_query_scatter_get : Nat
  op_query_multi_get : Nat
  op_query_active : Nat
  op_reply : Nat
  op_reply_cursor_not_found : Nat
  op_reply_query_failure : Nat
  op_reply_valid_cursor : Nat
  decoding_error : Nat
  delays_injected : Nat
  cx_destroy_local_with_active_rq : Nat
  cx_destroy_remote_with_active_rq : Nat
  deriving Repr, DecidableEq

/-- All-zero stats block of a fresh filter. -/
def emptyStats : MongoProxyStats :=
  { op_get_more := 0, op_insert := 0, op_kill_cursors := 0, op_query := 0
    op_query_tailable_cursor := 0, op_query_no_cursor_timeout := 0
    op_query_await_data := 0, op_query_exhaust := 0, op_query_no_max_time := 0
    op_query_scatter_get := 0, op_query_multi_get := 0, op_query_active := 0
    op_reply := 0, op_reply_cursor_not_found := 0, op_reply_query_failure := 0
    op_reply_valid_cursor := 0, decoding_error := 0, delays_injected := 0
    cx_destroy_local_with_active_rq := 0, cx_destroy_remote_with_active_rq := 0 }

/-- An active-request record (spec §3): the request id of a decoded query
whose reply has not yet been observed. -/
structure ActiveQuery where
  requestId : Int
  deriving Repr, DecidableEq

/-- Modelled from the spec: the per-connection state of `ProxyFilter`
(spec §4.5), whose implementation is absent from the excerpt.  `statTag`
is the configured stat prefix string (`"test."` in the tests); dynamic
per-collection/per-command counters are kept as a log of incremented
names, a counter's value being the name's multiplicity in the log.
`sniffing` is the decode-error latch: once cleared, the decoder is never
fed again on this connection (spec §7).  The booleans `faultConfigured`
and `runtimeDelayGate` model whether a fixed-delay fault rule is
configured and what the runtime returns for
`"mongo.fault.delay.percent"`.  `timersCreated`,
`continueReadingCalls`, `decoderInvocations` and `connectionCloseCalls`
count the filter's interactions with its host. -/
structure ProxyFilter where
  statTag : String
  stats : MongoProxyStats
  dynamicStats : List String
  activeQueries : List ActiveQuery
  sniffing : Bool
  runtimeProxyEnabled : Bool
  faultConfigured : Bool
  runtimeDelayGate : Bool
  delayTimerActive : Bool
  timersCreated : Nat
  continueReadingCalls : Nat
  decoderInvocations : Nat
  connectionCloseCalls : Nat

/-- A fresh filter for a new connection, with the given stat prefix and
fault configuration (spec §3 lifecycle). -/
def freshFilter (tag : String) (faultConfigured runtimeDelayGate : Bool) :
    ProxyFilter :=
  { statTag := tag, stats := emptyStats, dynamicStats := []
    activeQueries := [], sniffing := true, runtimeProxyEnabled := true
    faultConfigured := faultConfigured, runtimeDelayGate := runtimeDelayGate
    delayTimerActive := false, timersCreated := 0, continueReadingCalls := 0
    decoderInvocations := 0, connectionCloseCalls := 0 }

/-- The value of a dynamic (collection-, command- or callsite-level)
counter: the multiplicity of its full name in the increment log. -/
def dynCounter (f : ProxyFilter) (name : String) : Nat :=
  f.dynamicStats.count name

/-- Modelled from the spec: fault-delay arming, consulted per request
(spec §4.4).  A delay is armed only when a fault rule is configured, no
delay is already outstanding (at most one per connection), and the
runtime gate for `"mongo.fault.delay.percent"` selects the request;
arming creates one timer, increments `delays_injected` and marks the
delay pending. -/
def maybeArmDelay (f : ProxyFilter) : ProxyFilter :=
  if f.faultConfigured = true ∧ f.delayTimerActive = false ∧
      f.runtimeDelayGate = true then
    { f with delayTimerActive := true
             timersCreated := f.timersCreated + 1
             stats := { f.stats with delays_injected := f.stats.delays_injected + 1 } }
  else f

/-- Modelled from the spec: charge the per-base-name query counters
`<base>.total` and, by query type, `<base>.scatter_get` /
`<base>.multi_get` (spec §4.5; the collection-level `multi_get` is
pinned by `MongoProxyFilterTest.MultiGet`). -/
def chargeQueryStats (base : String) (qt : QueryType) (f : ProxyFilter) :
    ProxyFilter :=
  let f := { f with dynamicStats := (base ++ ".total") :: f.dynamicStats }
  if qt = .scatterGet then
    { f with dynamicStats := (base ++ ".scatter_get") :: f.dynamicStats }
  else if qt = .multiGet then
    { f with dynamicStats := (base ++ ".multi_get") :: f.dynamicStats }
  else f

/-- Modelled from the spec: `decodeQuery` stat derivation (spec §4.5).
Counts `op_query`, raises the `op_query_active` gauge, counts the four
flag-bit counters (bits 1, 4, 5, 6), counts `op_query_no_max_time` when
`$maxTimeMS` is absent, then either charges `cmd.<name>.total` for a
`db.$cmd` query or charges the collection-level counters plus the global
`op_query_scatter_get` / `op_query_multi_get`, appends the
active-request record, and finally consults the fault rule. -/
def decodeQuery (m : QueryMessage) (f : ProxyFilter) : ProxyFilter :=
  let coll := collectionOf m.fullCollectionName
  let isCmd := coll == "$cmd"
  let qt := queryType m.query
  let s := f.stats
  let s := { s with
    op_query := s.op_query + 1
    op_query_active := s.op_query_active + 1
    op_query_tailable_cursor :=
      s.op_query_tailable_cursor + (if m.flags.testBit 1 then 1 else 0)
    op_query_no_cursor_timeout :=
      s.op_query_no_cursor_timeout + (if m.flags.testBit 4 then 1 else 0)
    op_query_await_data :=
      s.op_query_await_data + (if m.flags.testBit 5 then 1 else 0)
    op_query_exhaust :=
      s.op_query_exhaust + (if m.flags.testBit 6 then 1 else 0)
    op_query_no_max_time :=
      s.op_query_no_max_time + (if hasKey m.query "$maxTimeMS" then 0 else 1)
    op_query_scatter_get :=
      s.op_query_scatter_get + (if isCmd = false ∧ qt = .scatterGet then 1 else 0)
    op_query_multi_get :=
      s.op_query_multi_get + (if isCmd = false ∧ qt = .multiGet then 1 else 0) }
  let f := { f with stats := s }
  let f :=
    if isCmd then
      { f with dynamicStats :=
          (f.statTag ++ "cmd." ++ commandName m.query ++ ".total") :: f.dynamicStats }
    else
      chargeQueryStats (f.statTag ++ "collection." ++ coll ++ ".query") qt f
  let f := { f with activeQueries := f.activeQueries ++ [{ requestId := m.requestId }] }
  maybeArmDelay f

/-- Modelled from the spec: `decodeGetMore` counts `op_get_more` and
consults the fault rule (spec §4.4, §4.5). -/
def decodeGetMore (_m : GetMoreMessage) (f : ProxyFilter) : ProxyFilter :=
  maybeArmDelay { f with stats := { f.stats with op_get_more := f.stats.op_get_more + 1 } }

/-- Modelled from the spec: `decodeInsert` counts `op_insert` and
consults the fault rule (spec §4.4, §4.5). -/
def decodeInsert (_m : InsertMessage) (f : ProxyFilter) : ProxyFilter :=
  maybeArmDelay { f with stats := { f.stats with op_insert := f.stats.op_insert + 1 } }

/-- Modelled from the spec: `decodeKillCursors` counts `op_kill_cursors`
and consults the fault rule (spec §4.4, §4.5). -/
def decodeKillCursors (_m : KillCursorsMessage) (f : ProxyFilter) : ProxyFilter :=
  maybeArmDelay
    { f with stats := { f.stats with op_kill_cursors := f.stats.op_kill_cursors + 1 } }

/-- Modelled from the spec: `decodeReply` (spec §4.5).  Counts
`op_reply` and the reply flag-bit counters (bit 0 → cursor not found,
bit 1 → query failure, non-zero cursor id → valid cursor), then matches
the reply by `response_to` against the oldest pending request with that
id: a match drops the record and lowers the `op_query_active` gauge; no
match counts nothing further. -/
def decodeReply (m : ReplyMessage) (f : ProxyFilter) : ProxyFilter :=
  let s := f.stats
  let s := { s with
    op_reply := s.op_reply + 1
    op_reply_cursor_not_found :=
      s.op_reply_cursor_not_found + (if m.flags.testBit 0 then 1 else 0)
    op_reply_query_failure :=
      s.op_reply_query_failure + (if m.flags.testBit 1 then 1 else 0)
    op_reply_valid_cursor :=
      s.op_reply_valid_cursor + (if m.cursorId ≠ 0 then 1 else 0) }
  let f := { f with stats := s }
  if f.activeQueries.any (fun a => a.requestId == m.responseTo) then
    { f with activeQueries := f.activeQueries.eraseP (fun a => a.requestId == m.responseTo)
             stats := { f.stats with op_query_active := f.stats.op_query_active - 1 } }
  else f

/-- Dispatch one decoded message to its per-op handler (spec §9
capability set). -/
def decodeMsg (m : Message) (f : ProxyFilter) : ProxyFilter :=
  match m with
  | .query m => decodeQuery m f
  | .getMore m => decodeGetMore m f
  | .insert m => decodeInsert m f
  | .killCursors m => decodeKillCursors m f
  | .reply m => decodeReply m f

/-- What the (externally injected) decoder does with one buffer of bytes:
either delivers a list of decoded messages in wire order, or raises a
fatal decode error (spec §4.3). -/
inductive DecodeOutcome where
  | messages (msgs : List Message)
  | decodeError

/-- Modelled from the spec: `doDecode` (spec §4.5, §7).  If the
decode-error latch is cleared or the `mongo.proxy_enabled` runtime gate
is off, the buffer is drained without invoking the decoder.  Otherwise
the decoder is invoked once; delivered messages are dispatched in order,
and a fatal decode error increments `decoding_error` and clears the
latch for the remainder of the connection.  The filter never closes the
connection itself. -/
def doDecode (out : DecodeOutcome) (f : ProxyFilter) : ProxyFilter :=
  if f.sniffing = false ∨ f.runtimeProxyEnabled = false then f
  else
    let f := { f with decoderInvocations := f.decoderInvocations + 1 }
    match out with
    | .messages msgs => msgs.foldl (fun acc m => decodeMsg m acc) f
    | .decodeError =>
        { f with stats := { f.stats with decoding_error := f.stats.decoding_error + 1 }
                 sniffing := false }

/-- The status a filter call returns to the host (spec §6). -/
inductive FilterStatus where
  | Continue
  | StopIteration
  deriving Repr, DecidableEq

/-- Modelled from the spec: `onData` decodes the downstream bytes and
returns `StopIteration` exactly while an injected delay is pending,
`Continue` otherwise (spec §4.4, §6). -/
def onData (out : DecodeOutcome) (f : ProxyFilter) : ProxyFilter × FilterStatus :=
  let f := doDecode out f
  (f, if f.delayTimerActive = true then .StopIteration else .Continue)

/-- Modelled from the spec: `onWrite` decodes the upstream bytes and
always returns `Continue` (spec §6). -/
def onWrite (out : DecodeOutcome) (f : ProxyFilter) : ProxyFilter × FilterStatus :=
  (doDecode out f, .Continue)

/-- Modelled from the spec: the delay timer callback clears the
pending-delay flag and invokes `continueReading` on the host
(spec §4.4). -/
def onDelayTimer (f : ProxyFilter) : ProxyFilter :=
  { f with delayTimerActive := false
           continueReadingCalls := f.continueReadingCalls + 1 }

/-- Connection events raised by the host (spec §6). -/
inductive ConnectionEvent where
  | RemoteClose
  | LocalClose
  | Connected
  deriving Repr, DecidableEq

/-- Modelled from the spec: the connection-event handler.  With a
non-empty active-request list a close event increments exactly one of
the two destroy counters; an empty list increments neither (spec §4.5).
The direction mapping follows the repository's tests, which pin
`RemoteClose → cx_destroy_local_with_active_rq` and
`LocalClose → cx_destroy_remote_with_active_rq`
(`MongoProxyFilterTest.ConnectionDestroyLocal` raises `RemoteClose` and
expects `cx_destroy_local_with_active_rq`;
`MongoProxyFilterTest.ConnectionDestroyRemote` raises `LocalClose` and
expects `cx_destroy_remote_with_active_rq`), inverting the spec
sentence's direction mapping. -/
def onEvent (e : ConnectionEvent) (f : ProxyFilter) : ProxyFilter :=
  if f.activeQueries.isEmpty then f
  else
    match e with
    | .RemoteClose =>
        { f with stats := { f.stats with cx_destroy_local_with_active_rq :=
            f.stats.cx_destroy_local_with_active_rq + 1 } }
    | .LocalClose =>
        { f with stats := { f.stats with cx_destroy_remote_with_active_rq :=
            f.stats.cx_destroy_remote_with_active_rq + 1 } }
    | .Connected => f

/-- One call from the host into the filter over the connection's life
(spec §6 network-filter contract plus the timer callback). -/
inductive FilterCall where
  | data (out : DecodeOutcome)
  | write (out : DecodeOutcome)
  | timerFired
  | event (e : ConnectionEvent)

/-- Apply one host call, discarding the returned status. -/
def applyCall (f : ProxyFilter) : FilterCall → ProxyFilter
  | .data out => (onData out f).1
  | .write out => (onWrite out f).1
  | .timerFired => onDelayTimer f
  | .event e => onEvent e f

/-- Apply a sequence of host calls left to right. -/
def runCalls (f : ProxyFilter) (calls : List FilterCall) : ProxyFilter :=
  calls.foldl applyCall f

/-- An `OP_QUERY` message with `response_to = 0` and the given request
id, flags, full collection name and query document. -/
def queryOn (rid : Int) (fl : Nat) (full : String) (q : BsonDocument) :
    QueryMessage :=
  { requestId := rid, responseTo := 0, flags := fl
    fullCollectionName := full, query := q }

/-- The query the proxy tests decode: `OP_QUERY` on `db.test` with flags
`0b1110010` and an empty query document. -/
def sampleQuery : QueryMessage :=
  { requestId := 0, responseTo := 0, flags := 114
    fullCollectionName := "db.test", query := [] }

/-- The multi-get query of `MongoProxyFilterTest.MultiGet`: `_id`
against a document holding an `$in` array. -/
def sampleMultiGetQuery : QueryMessage :=
  { sampleQuery with query := [("_id", BsonValue.doc [("$in", BsonValue.arr [])])] }

/-- The query of `MongoProxyFilterTest.MaxTime`: `$maxTimeMS` present. -/
def sampleMaxTimeQuery : QueryMessage :=
  { sampleQuery with query := [("$maxTimeMS", BsonValue.int32 100)] }

/-- The get-more message the proxy tests decode. -/
def sampleGetMore : GetMoreMessage :=
  { requestId := 0, responseTo := 0, fullCollectionName := "db.test", cursorId := 1 }

/-- The reply the proxy tests decode: flags `0b11`, cursor id 1, one
document. -/
def sampleReply : ReplyMessage :=
  { requestId := 0, responseTo := 0, flags := 3, cursorId := 1
    documents := [[("hello", BsonValue.str "world")]] }

/-- A fresh filter with the tests' stat prefix `"test."` and no fault
rule. -/
def sampleFilter : ProxyFilter :=
  freshFilter "test." false false

/-- A fresh filter with the tests' stat prefix, a configured fixed-delay
fault rule and the runtime gate selecting the request
(`MongoProxyFilterTest.DelayFaults`). -/
def delayFilter : ProxyFilter :=
  freshFilter "test." true true

/-- `DelayFaults` trace, step 1: the first query arrives and arms the
delay. -/
def delayStep1 : ProxyFilter × FilterStatus :=
  onData (.messages [.query sampleQuery]) delayFilter

/-- `DelayFaults` trace, step 2: a second query arrives during the
pending delay. -/
def delayStep2 : ProxyFilter × FilterStatus :=
  onData (.messages [.query sampleQuery]) delayStep1.1

/-- `DelayFaults` trace, step 3: a get-more arrives during the pending
delay. -/
def delayStep3 : ProxyFilter × FilterStatus :=
  onData (.messages [.getMore sampleGetMore]) delayStep2.1

/-- `DelayFaults` trace, step 4: the delay timer fires. -/
def delayStep4 : ProxyFilter :=
  onDelayTimer delayStep3.1

/-- First query of `MongoProxyFilterTest.ConcurrentQuery` (request id 1). -/
def concQueryA : QueryMessage :=
  { sampleQuery with requestId := 1 }

/-- Second query of `MongoProxyFilterTest.ConcurrentQuery` (request id 2). -/
def concQueryB : QueryMessage :=
  { sampleQuery with requestId := 2 }

/-- Reply matching request id 1. -/
def concReplyA : ReplyMessage :=
  { sampleReply with responseTo := 1 }

/-- Reply matching request id 2. -/
def concReplyB : ReplyMessage :=
  { sampleReply with responseTo := 2 }

end Mongo

end Envoy

open Envoy.Buffer Envoy.Buffer.WatermarkBuffer

namespace Envoy.Buffer.WatermarkBuffer

theorem checkHigh_counterInv {b : WatermarkBuffer} (h : counterInv b) :
    counterInv (checkHigh b) := by
  unfold counterInv checkHigh at *
  split
  · next hc => simp_all
  · exact h

theorem checkLow_counterInv {b : WatermarkBuffer} (h : counterInv b) :
    counterInv (checkLow b) := by
  unfold counterInv checkLow at *
  split
  · next hc => simp_all
  · exact h

theorem step_counterInv {b : WatermarkBuffer} (h : counterInv b) (op : Op) :
    counterInv (step b op) := by
  cases op with
  | add n => exact checkHigh_counterInv h
  | drain n => exact checkLow_counterInv h
  | moveIn n => exact checkHigh_counterInv h
  | moveOut n => exact checkLow_counterInv h
  | setWatermarks l h' => exact checkLow_counterInv (checkHigh_counterInv h)

theorem run_counterInv : ∀ (ops : List Op) (b : WatermarkBuffer),
    counterInv b → counterInv (run b ops)
  | [], _, h => h
  | op :: ops, b, h => run_counterInv ops (step b op) (step_counterInv h op)

end Envoy.Buffer.WatermarkBuffer

/-- C8: for any operation sequence on a fresh watermark buffer with
thresholds `(L, H)`, the number of high-callback invocations equals the
number of low-callback invocations or exceeds it by exactly one, and the
`above_high` latch is set exactly when the difference is one. -/
theorem watermark_callback_balance (l h : Nat) (ops : List Op) :
    ((run (fresh l h) ops).highCalls = (run (fresh l h) ops).lowCalls ∨
      (run (fresh l h) ops).highCalls = (run (fresh l h) ops).lowCalls + 1) ∧
    ((run (fresh l h) ops).aboveHigh = true ↔
      (run (fresh l h) ops).highCalls = (run (fresh l h) ops).lowCalls + 1) := by
  have hinv := run_counterInv ops (fresh l h) (by exact ⟨by simp [fresh], by simp [fresh]⟩)
  rcases hinv with ⟨h1, h2⟩
  cases hb : (run (fresh l h) ops).aboveHigh with
  | false =>
      have he := h2 hb
      refine ⟨Or.inl he, ?_⟩
      rw [he]
      simp
  | true =>
      have he := h1 hb
      exact ⟨Or.inr he, by simp [he]⟩

/-- C2 counterexample: with thresholds `(5, 10)`, after `add 11` the
latch is set; `drain 6` takes the length to `5 ≤ L` while the latch is
set, yet the low callback does not fire (the code fires it only strictly
below `L`, as `WatermarkBufferTest.Drain` pins: draining to length 5
leaves the low count at 0). -/
theorem watermark_edge_rule_cex :
    (add 11 (fresh 5 10)).aboveHigh = true ∧
    (drain 6 (add 11 (fresh 5 10))).len = 5 ∧
    (drain 6 (add 11 (fresh 5 10))).len ≤ (add 11 (fresh 5 10)).low ∧
    (drain 6 (add 11 (fresh 5 10))).lowCalls = (add 11 (fresh 5 10)).lowCalls := by
  decide

/-- C2 (amended): the high callback fires exactly on an operation that
takes length strictly above `H` while the latch is false (setting it);
the low callback fires exactly on an operation that takes length
strictly below `L` while the latch is true (clearing it); no operation
that leaves the length strictly between `L` and `H` fires any callback;
and the move sides behave as the corresponding add/drain.  Includes the
spec's concrete drain-through-low scenario: thresholds `(5, 10)`, add 11
→ high fires once, drain 6 (length 5) → low does not fire, drain 1
(length 4) → low fires once. -/
theorem watermark_edge_rule :
    (∀ (b : WatermarkBuffer) (n : Nat),
      ((add n b).highCalls = b.highCalls + 1 ↔
        b.aboveHigh = false ∧ b.high < b.len + n) ∧
      ((add n b).highCalls = b.highCalls + 1 → (add n b).aboveHigh = true) ∧
      (add n b).lowCalls = b.lowCalls) ∧
    (∀ (b : WatermarkBuffer) (n : Nat),
      ((drain n b).lowCalls = b.lowCalls + 1 ↔
        b.aboveHigh = true ∧ b.len - n < b.low) ∧
      ((drain n b).lowCalls = b.lowCalls + 1 → (drain n b).aboveHigh = false) ∧
      (drain n b).highCalls = b.highCalls) ∧
    (∀ (b : WatermarkBuffer) (n : Nat),
      step b (.moveIn n) = add n b ∧ step b (.moveOut n) = drain n b) ∧
    (∀ (b : WatermarkBuffer) (n : Nat),
      b.low < b.len + n → b.len + n < b.high →
        (add n b).highCalls = b.highCalls ∧ (add n b).lowCalls = b.lowCalls ∧
        (add n b).aboveHigh = b.aboveHigh) ∧
    (∀ (b : WatermarkBuffer) (n : Nat),
      b.low < b.len - n → b.len - n < b.high →
        (drain n b).highCalls = b.highCalls ∧ (drain n b).lowCalls = b.lowCalls ∧
        (drain n b).aboveHigh = b.aboveHigh) ∧
    ((add 11 (fresh 5 10)).highCalls = 1 ∧
      (drain 6 (add 11 (fresh 5 10))).len = 5 ∧
      (drain 6 (add 11 (fresh 5 10))).lowCalls = 0 ∧
      (drain 1 (drain 6 (add 11 (fresh 5 10)))).len = 4 ∧
      (drain 1 (drain 6 (add 11 (fresh 5 10)))).lowCalls = 1) := by
  refine ⟨?_, ?_, ?_, ?_, ?_, by decide⟩
  · intro b n
    cases hb : b.aboveHigh <;>
      simp only [add, checkHigh, hb] <;>
      split_ifs <;> simp_all <;> omega
  · intro b n
    cases hb : b.aboveHigh <;>
      simp only [drain, checkLow, hb] <;>
      split_ifs <;> simp_all <;> omega
  · intro b n
    exact ⟨rfl, rfl⟩
  · intro b n h1 h2
    cases hb : b.aboveHigh <;>
      simp only [add, checkHigh, hb] <;>
      split_ifs <;> simp_all <;> omega
  · intro b n h1 h2
    cases hb : b.aboveHigh <;>
      simp only [drain, checkLow, hb] <;>
      split_ifs <;> simp_all <;> omega

/-- C2 witness: the edge rule applied at a concrete input — on the
buffer of the drain scenario, `add 1` at length 10 with thresholds
`(5, 10)` fires the high callback. -/
theorem watermark_edge_rule_wit :
    (add 1 (add 10 (fresh 5 10))).highCalls =
      (add 10 (fresh 5 10)).highCalls + 1 :=
  (watermark_edge_rule.1 (add 10 (fresh 5 10)) 1).1.mpr (by decide)

/-- C3 counterexample: from the `WatermarkBufferTest.MoveWatermarks`
trace — at length 9 with the latch set, `setWatermarks(9, 20)` leaves
`length ≤ L' = 9`, yet the low callback does not fire (the code fires it
only strictly below `L'`). -/
theorem setWatermarks_reevaluation_cex :
    (setWatermarks 1 8 (add 9 (fresh 5 10))).aboveHigh = true ∧
    (setWatermarks 1 8 (add 9 (fresh 5 10))).len = 9 ∧
    (setWatermarks 9 20 (setWatermarks 1 8 (add 9 (fresh 5 10)))).lowCalls =
      (setWatermarks 1 8 (add 9 (fresh 5 10))).lowCalls := by
  decide

/-- C3 (amended): after `setWatermarks(L', H')` with `L' ≤ H'`: if the
latch is false, the high callback fires exactly when the current length
is strictly above `H'` (setting the latch), and the low count is
unchanged; if the latch is true, the low callback fires exactly when the
current length is strictly below `L'` (clearing the latch), and the high
count is unchanged.  Repeating the same `setWatermarks` fires no
additional callbacks: the second application leaves the buffer
unchanged. -/
theorem setWatermarks_reevaluation :
    (∀ (b : WatermarkBuffer) (l h : Nat), l ≤ h →
      (b.aboveHigh = false →
        ((setWatermarks l h b).highCalls = b.highCalls + 1 ↔ h < b.len) ∧
        (setWatermarks l h b).lowCalls = b.lowCalls ∧
        (h < b.len → (setWatermarks l h b).aboveHigh = true)) ∧
      (b.aboveHigh = true →
        ((setWatermarks l h b).lowCalls = b.lowCalls + 1 ↔ b.len < l) ∧
        (setWatermarks l h b).highCalls = b.highCalls ∧
        (b.len < l → (setWatermarks l h b).aboveHigh = false))) ∧
    (∀ (b : WatermarkBuffer) (l h : Nat), l ≤ h →
      setWatermarks l h (setWatermarks l h b) = setWatermarks l h b) := by
  constructor
  · intro b l h hlh
    constructor
    · intro hb
      simp only [setWatermarks, checkHigh, checkLow, hb]
      split_ifs <;> simp_all <;> omega
    · intro hb
      simp only [setWatermarks, checkHigh, checkLow, hb]
      split_ifs <;> simp_all <;> omega
  · intro b l h hlh
    cases hb : b.aboveHigh <;>
      simp only [setWatermarks, checkHigh, checkLow, hb] <;>
      split_ifs <;> simp_all <;> omega

/-- C3 witness: the reconfiguration rule applied at a concrete input —
shrinking `H` to 8 at length 9 with a clear latch fires the high
callback (the `MoveWatermarks` trace point). -/
theorem setWatermarks_reevaluation_wit :
    (setWatermarks 1 8 (add 9 (fresh 5 10))).highCalls =
      (add 9 (fresh 5 10)).highCalls + 1 :=
  (((setWatermarks_reevaluation.1 (add 9 (fresh 5 10)) 1 8 (by decide)).1
    (by decide)).1).mpr (by decide)

/-- C7: a `move` between two watermark buffers re-evaluates both the
destination's high edge and the source's low edge after the transfer,
and both may fire on a single operation: with both buffers at `(5, 10)`
and the source at 20 bytes above high, moving 10 bytes fires nothing
(both at 10), and moving 10 more fires the source's low callback and the
destination's high callback on that one move. -/
theorem move_reevaluates_both_buffers :
    (∀ (dst src : WatermarkBuffer) (n : Nat),
      (move dst src n).1.len = dst.len + min n src.len ∧
      (move dst src n).2.len = src.len - min n src.len ∧
      ((move dst src n).1.highCalls = dst.highCalls + 1 ↔
        dst.aboveHigh = false ∧ dst.high < dst.len + min n src.len) ∧
      ((move dst src n).2.lowCalls = src.lowCalls + 1 ↔
        src.aboveHigh = true ∧ src.len - min n src.len < src.low)) ∧
    ((add 10 (add 10 (fresh 5 10))).len = 20 ∧
      (add 10 (add 10 (fresh 5 10))).aboveHigh = true ∧
      (move (fresh 5 10) (add 10 (add 10 (fresh 5 10))) 10).1.len = 10 ∧
      (move (fresh 5 10) (add 10 (add 10 (fresh 5 10))) 10).2.len = 10 ∧
      (move (fresh 5 10) (add 10 (add 10 (fresh 5 10))) 10).1.highCalls = 0 ∧
      (move (fresh 5 10) (add 10 (add 10 (fresh 5 10))) 10).2.lowCalls = 0 ∧
      (move (move (fresh 5 10) (add 10 (add 10 (fresh 5 10))) 10).1
            (move (fresh 5 10) (add 10 (add 10 (fresh 5 10))) 10).2 10).2.lowCalls = 1 ∧
      (move (move (fresh 5 10) (add 10 (add 10 (fresh 5 10))) 10).1
            (move (fresh 5 10) (add 10 (add 10 (fresh 5 10))) 10).2 10).1.highCalls = 1) := by
  constructor
  · intro dst src n
    cases hd : dst.aboveHigh <;> cases hs : src.aboveHigh <;>
      simp only [move, checkHigh, checkLow, hd, hs] <;>
      split_ifs <;> simp_all <;> omega
  · decide

/-- C7 witness: the move characterization applied at a concrete input —
the second 10-byte move of the scenario fires the destination's high
callback. -/
theorem move_reevaluates_both_buffers_wit :
    (move (move (fresh 5 10) (add 10 (add 10 (fresh 5 10))) 10).1
          (move (fresh 5 10) (add 10 (add 10 (fresh 5 10))) 10).2 10).1.highCalls =
      (move (fresh 5 10) (add 10 (add 10 (fresh 5 10))) 10).1.highCalls + 1 :=
  ((move_reevaluates_both_buffers.1
      (move (fresh 5 10) (add 10 (add 10 (fresh 5 10))) 10).1
      (move (fresh 5 10) (add 10 (add 10 (fresh 5 10))) 10).2 10).2.2.1).mpr
    (by decide)

open Envoy.Mongo

namespace Envoy.Mongo

@[simp]
theorem maybeArmDelay_statTag (f : ProxyFilter) :
    (maybeArmDelay f).statTag = f.statTag := by
  unfold maybeArmDelay; split <;> rfl

@[simp]
theorem maybeArmDelay_dynamicStats (f : ProxyFilter) :
    (maybeArmDelay f).dynamicStats = f.dynamicStats := by
  unfold maybeArmDelay; split <;> rfl

@[simp]
theorem maybeArmDelay_activeQueries (f : ProxyFilter) :
    (maybeArmDelay f).activeQueries = f.activeQueries := by
  unfold maybeArmDelay; split <;> rfl

@[simp]
theorem maybeArmDelay_sniffing (f : ProxyFilter) :
    (maybeArmDelay f).sniffing = f.sniffing := by
  unfold maybeArmDelay; split <;> rfl

@[simp]
theorem maybeArmDelay_continueReadingCalls (f : ProxyFilter) :
    (maybeArmDelay f).continueReadingCalls = f.continueReadingCalls := by
  unfold maybeArmDelay; split <;> rfl

@[simp]
theorem maybeArmDelay_connectionCloseCalls (f : ProxyFilter) :
    (maybeArmDelay f).connectionCloseCalls = f.connectionCloseCalls := by
  unfold maybeArmDelay; split <;> rfl

@[simp]
theorem maybeArmDelay_decoderInvocations (f : ProxyFilter) :
    (maybeArmDelay f).decoderInvocations = f.decoderInvocations := by
  unfold maybeArmDelay; split <;> rfl

@[simp]
theorem maybeArmDelay_op_query_active (f : ProxyFilter) :
    (maybeArmDelay f).stats.op_query_active = f.stats.op_query_active := by
  unfold maybeArmDelay; split <;> rfl

@[simp]
theorem maybeArmDelay_op_query (f : ProxyFilter) :
    (maybeArmDelay f).stats.op_query = f.stats.op_query := by
  unfold maybeArmDelay; split <;> rfl

@[simp]
theorem maybeArmDelay_op_query_multi_get (f : ProxyFilter) :
    (maybeArmDelay f).stats.op_query_multi_get = f.stats.op_query_multi_get := by
  unfold maybeArmDelay; split <;> rfl

@[simp]
theorem maybeArmDelay_decoding_error (f : ProxyFilter) :
    (maybeArmDelay f).stats.decoding_error = f.stats.decoding_error := by
  unfold maybeArmDelay; split <;> rfl

theorem maybeArmDelay_of_pending (f : ProxyFilter)
    (h : f.delayTimerActive = true) : maybeArmDelay f = f := by
  unfold maybeArmDelay; split <;> simp_all

end Envoy.Mongo

/-- C1 counterexample: on a filter holding one active request, a
`RemoteClose` event increments `cx_destroy_local_with_active_rq`, not
`cx_destroy_remote_with_active_rq`, and a `LocalClose` event does the
reverse — the opposite of the claim's direction mapping (pinned by
`MongoProxyFilterTest.ConnectionDestroyLocal` and
`ConnectionDestroyRemote`). -/
theorem cx_destroy_close_direction_cex :
    (decodeQuery sampleQuery sampleFilter).activeQueries ≠ [] ∧
    (onEvent .RemoteClose (decodeQuery sampleQuery sampleFilter)).stats.cx_destroy_remote_with_active_rq = 0 ∧
    (onEvent .RemoteClose (decodeQuery sampleQuery sampleFilter)).stats.cx_destroy_local_with_active_rq = 1 ∧
    (onEvent .LocalClose (decodeQuery sampleQuery sampleFilter)).stats.cx_destroy_local_with_active_rq = 0 ∧
    (onEvent .LocalClose (decodeQuery sampleQuery sampleFilter)).stats.cx_destroy_remote_with_active_rq = 1 := by
  decide

/-- C1 (amended): on a connection close event with a non-empty
active-request list exactly one of the two destroy counters is
incremented, selected by the close direction as the code maps it — a
remote close increments `cx_destroy_local_with_active_rq` and a local
close increments `cx_destroy_remote_with_active_rq`; with an empty
active-request list no event changes either counter. -/
theorem cx_destroy_close_direction (f : ProxyFilter) :
    (f.activeQueries ≠ [] →
      ((onEvent .RemoteClose f).stats.cx_destroy_local_with_active_rq =
          f.stats.cx_destroy_local_with_active_rq + 1 ∧
        (onEvent .RemoteClose f).stats.cx_destroy_remote_with_active_rq =
          f.stats.cx_destroy_remote_with_active_rq) ∧
      ((onEvent .LocalClose f).stats.cx_destroy_remote_with_active_rq =
          f.stats.cx_destroy_remote_with_active_rq + 1 ∧
        (onEvent .LocalClose f).stats.cx_destroy_local_with_active_rq =
          f.stats.cx_destroy_local_with_active_rq)) ∧
    (f.activeQueries = [] →
      ∀ e, (onEvent e f).stats.cx_destroy_local_with_active_rq =
          f.stats.cx_destroy_local_with_active_rq ∧
        (onEvent e f).stats.cx_destroy_remote_with_active_rq =
          f.stats.cx_destroy_remote_with_active_rq) := by
  constructor
  · intro hne
    have hemp : f.activeQueries.isEmpty = false := by
      cases hq : f.activeQueries <;> simp_all
    simp [onEvent, hemp]
  · intro he e
    cases e <;> simp [onEvent, he]

/-- C1 witness: the amended mapping at a concrete input — a filter with
one active request sees `cx_destroy_local_with_active_rq` rise on
`RemoteClose`. -/
theorem cx_destroy_close_direction_wit :
    (onEvent .RemoteClose (decodeQuery sampleQuery sampleFilter)).stats.cx_destroy_local_with_active_rq =
      (decodeQuery sampleQuery sampleFilter).stats.cx_destroy_local_with_active_rq + 1 :=
  ((cx_destroy_close_direction (decodeQuery sampleQuery sampleFilter)).1 (by decide)).1.1

namespace Envoy.Mongo

theorem length_eraseP_of_any {α : Type} (p : α → Bool) :
    ∀ (l : List α), l.any p = true → (l.eraseP p).length + 1 = l.length
  | [], h => by simp at h
  | x :: xs, h => by
      by_cases hx : p x = true
      · simp [List.eraseP_cons, hx]
      · have hxs : xs.any p = true := by
          simp only [List.any_cons, hx] at h
          simpa using h
        simp only [List.eraseP_cons, hx]
        simpa using congrArg Nat.succ (length_eraseP_of_any p xs hxs)

/-- The gauge/list coupling: `op_query_active` equals the number of
pending active-request records. -/
def gaugeInv (f : ProxyFilter) : Prop :=
  f.stats.op_query_active = f.activeQueries.length

@[simp]
theorem chargeQueryStats_stats (b : String) (qt : QueryType) (f : ProxyFilter) :
    (chargeQueryStats b qt f).stats = f.stats := by
  unfold chargeQueryStats; split_ifs <;> rfl

@[simp]
theorem chargeQueryStats_activeQueries (b : String) (qt : QueryType) (f : ProxyFilter) :
    (chargeQueryStats b qt f).activeQueries = f.activeQueries := by
  unfold chargeQueryStats; split_ifs <;> rfl

@[simp]
theorem chargeQueryStats_statTag (b : String) (qt : QueryType) (f : ProxyFilter) :
    (chargeQueryStats b qt f).statTag = f.statTag := by
  unfold chargeQueryStats; split_ifs <;> rfl

@[simp]
theorem chargeQueryStats_sniffing (b : String) (qt : QueryType) (f : ProxyFilter) :
    (chargeQueryStats b qt f).sniffing = f.sniffing := by
  unfold chargeQueryStats; split_ifs <;> rfl

@[simp]
theorem chargeQueryStats_continueReadingCalls (b : String) (qt : QueryType) (f : ProxyFilter) :
    (chargeQueryStats b qt f).continueReadingCalls = f.continueReadingCalls := by
  unfold chargeQueryStats; split_ifs <;> rfl

@[simp]
theorem chargeQueryStats_connectionCloseCalls (b : String) (qt : QueryType) (f : ProxyFilter) :
    (chargeQueryStats b qt f).connectionCloseCalls = f.connectionCloseCalls := by
  unfold chargeQueryStats; split_ifs <;> rfl

@[simp]
theorem chargeQueryStats_decoderInvocations (b : String) (qt : QueryType) (f : ProxyFilter) :
    (chargeQueryStats b qt f).decoderInvocations = f.decoderInvocations := by
  unfold chargeQueryStats; split_ifs <;> rfl

@[simp]
theorem chargeQueryStats_delayTimerActive (b : String) (qt : QueryType) (f : ProxyFilter) :
    (chargeQueryStats b qt f).delayTimerActive = f.delayTimerActive := by
  unfold chargeQueryStats; split_ifs <;> rfl

@[simp]
theorem chargeQueryStats_timersCreated (b : String) (qt : QueryType) (f : ProxyFilter) :
    (chargeQueryStats b qt f).timersCreated = f.timersCreated := by
  unfold chargeQueryStats; split_ifs <;> rfl

@[simp]
theorem chargeQueryStats_faultConfigured (b : String) (qt : QueryType) (f : ProxyFilter) :
    (chargeQueryStats b qt f).faultConfigured = f.faultConfigured := by
  unfold chargeQueryStats; split_ifs <;> rfl

@[simp]
theorem chargeQueryStats_runtimeDelayGate (b : String) (qt : QueryType) (f : ProxyFilter) :
    (chargeQueryStats b qt f).runtimeDelayGate = f.runtimeDelayGate := by
  unfold chargeQueryStats; split_ifs <;> rfl

theorem decodeQuery_gauge (m : QueryMessage) (f : ProxyFilter) :
    (decodeQuery m f).stats.op_query_active = f.stats.op_query_active + 1 ∧
    (decodeQuery m f).activeQueries = f.activeQueries ++ [{ requestId := m.requestId }] := by
  simp only [decodeQuery, maybeArmDelay_op_query_active, maybeArmDelay_activeQueries,
    apply_ite ProxyFilter.stats, apply_ite ProxyFilter.activeQueries,
    chargeQueryStats_stats, chargeQueryStats_activeQueries, ite_self]
  exact ⟨trivial, trivial⟩

theorem decodeReply_gauge (m : ReplyMessage) (f : ProxyFilter)
    (h : gaugeInv f) : gaugeInv (decodeReply m f) := by
  unfold gaugeInv at *
  by_cases hm : f.activeQueries.any (fun a => a.requestId == m.responseTo) = true
  · have hlen := length_eraseP_of_any _ f.activeQueries hm
    simp only [decodeReply]
    split_ifs <;> simp_all <;> omega
  · simp only [decodeReply]
    split_ifs <;> simp_all

theorem decodeMsg_gauge (m : Message) (f : ProxyFilter)
    (h : gaugeInv f) : gaugeInv (decodeMsg m f) := by
  cases m with
  | query m =>
      have hg := decodeQuery_gauge m f
      unfold gaugeInv at *
      simp only [decodeMsg]
      rw [hg.1, hg.2]
      simp [h]
  | getMore m => unfold gaugeInv at *; simp [decodeMsg, decodeGetMore, h]
  | insert m => unfold gaugeInv at *; simp [decodeMsg, decodeInsert, h]
  | killCursors m => unfold gaugeInv at *; simp [decodeMsg, decodeKillCursors, h]
  | reply m => exact decodeReply_gauge m f h

theorem foldlDecode_gauge :
    ∀ (msgs : List Message) (f : ProxyFilter), gaugeInv f →
      gaugeInv (msgs.foldl (fun acc m => decodeMsg m acc) f)
  | [], _, h => h
  | m :: msgs, f, h => foldlDecode_gauge msgs (decodeMsg m f) (decodeMsg_gauge m f h)

theorem doDecode_gauge (out : DecodeOutcome) (f : ProxyFilter)
    (h : gaugeInv f) : gaugeInv (doDecode out f) := by
  unfold doDecode
  split
  · exact h
  · cases out with
    | messages msgs =>
        exact foldlDecode_gauge msgs _ (by unfold gaugeInv at *; simpa using h)
    | decodeError => unfold gaugeInv at *; simpa using h

theorem applyCall_gauge (f : ProxyFilter) (c : FilterCall)
    (h : gaugeInv f) : gaugeInv (applyCall f c) := by
  cases c with
  | data out => exact doDecode_gauge out f h
  | write out => exact doDecode_gauge out f h
  | timerFired => unfold gaugeInv at *; simpa [onDelayTimer] using h
  | event e =>
      unfold gaugeInv at *
      cases e <;> simp only [applyCall, onEvent] <;> split_ifs <;> simp_all

theorem runCalls_gauge :
    ∀ (calls : List FilterCall) (f : ProxyFilter), gaugeInv f →
      gaugeInv (runCalls f calls)
  | [], _, h => h
  | c :: calls, f, h => runCalls_gauge calls (applyCall f c) (applyCall_gauge f c h)

end Envoy.Mongo

/-- C9: the `op_query_active` gauge is raised by one at every decoded
query and lowered by one exactly when a reply's `response_to` matches a
pending request id; over any host-call sequence from a fresh filter the
gauge equals the number of pending requests, so once every decoded query
has received a matched reply it is back to 0.  Includes the
`ConcurrentQuery` trace: two queries raise it to 2, their two matched
replies return it to 0. -/
theorem op_query_active_balance :
    (∀ (tag : String) (fc gate : Bool) (calls : List FilterCall),
      (runCalls (freshFilter tag fc gate) calls).stats.op_query_active =
        (runCalls (freshFilter tag fc gate) calls).activeQueries.length) ∧
    (∀ (f : ProxyFilter) (m : QueryMessage),
      (decodeQuery m f).stats.op_query_active = f.stats.op_query_active + 1) ∧
    (∀ (f : ProxyFilter) (m : ReplyMessage),
      (f.activeQueries.any (fun a => a.requestId == m.responseTo) = true →
        (decodeReply m f).stats.op_query_active = f.stats.op_query_active - 1) ∧
      (f.activeQueries.any (fun a => a.requestId == m.responseTo) = false →
        (decodeReply m f).stats.op_query_active = f.stats.op_query_active)) ∧
    ((runCalls sampleFilter
        [.data (.messages [.query concQueryA, .query concQueryB])]).stats.op_query_active = 2 ∧
      (runCalls sampleFilter
        [.data (.messages [.query concQueryA, .query concQueryB]),
         .write (.messages [.reply concReplyA, .reply concReplyB])]).stats.op_query_active = 0 ∧
      (runCalls sampleFilter
        [.data (.messages [.query concQueryA, .query concQueryB]),
         .write (.messages [.reply concReplyA, .reply concReplyB])]).activeQueries = []) := by
  refine ⟨?_, ?_, ?_, by decide⟩
  · intro tag fc gate calls
    exact runCalls_gauge calls (freshFilter tag fc gate) (by unfold gaugeInv freshFilter; simp [emptyStats])
  · intro f m
    exact (decodeQuery_gauge m f).1
  · intro f m
    constructor
    · intro hm
      simp only [decodeReply]
      split_ifs <;> simp_all
    · intro hm
      simp only [decodeReply]
      split_ifs <;> simp_all

/-- C9 witness: the matched-reply decrement at a concrete input — the
reply to request id 1 lowers the gauge of the filter holding that
request. -/
theorem op_query_active_balance_wit :
    (decodeReply concReplyA (decodeQuery concQueryA sampleFilter)).stats.op_query_active =
      (decodeQuery concQueryA sampleFilter).stats.op_query_active - 1 :=
  ((op_query_active_balance.2.2.1 (decodeQuery concQueryA sampleFilter) concReplyA).1 (by decide))

namespace Envoy.Mongo

theorem maybeArmDelay_pending_delayTimerActive (g : ProxyFilter)
    (h : g.delayTimerActive = true) : (maybeArmDelay g).delayTimerActive = true := by
  rw [maybeArmDelay_of_pending g h]; exact h

theorem maybeArmDelay_pending_timersCreated (g : ProxyFilter)
    (h : g.delayTimerActive = true) : (maybeArmDelay g).timersCreated = g.timersCreated := by
  rw [maybeArmDelay_of_pending g h]

theorem maybeArmDelay_pending_delays_injected (g : ProxyFilter)
    (h : g.delayTimerActive = true) :
    (maybeArmDelay g).stats.delays_injected = g.stats.delays_injected := by
  rw [maybeArmDelay_of_pending g h]

theorem decodeMsg_continueReadingCalls (m : Message) (f : ProxyFilter) :
    (decodeMsg m f).continueReadingCalls = f.continueReadingCalls := by
  cases m <;>
    simp only [decodeMsg, decodeQuery, decodeGetMore, decodeInsert, decodeKillCursors,
      decodeReply, maybeArmDelay_continueReadingCalls,
      apply_ite ProxyFilter.continueReadingCalls,
      chargeQueryStats_continueReadingCalls, ite_self]

theorem decodeMsg_connectionCloseCalls (m : Message) (f : ProxyFilter) :
    (decodeMsg m f).connectionCloseCalls = f.connectionCloseCalls := by
  cases m <;>
    simp only [decodeMsg, decodeQuery, decodeGetMore, decodeInsert, decodeKillCursors,
      decodeReply, maybeArmDelay_connectionCloseCalls,
      apply_ite ProxyFilter.connectionCloseCalls,
      chargeQueryStats_connectionCloseCalls, ite_self]

theorem decodeMsg_pending (m : Message) (f : ProxyFilter)
    (h : f.delayTimerActive = true) :
    (decodeMsg m f).delayTimerActive = true ∧
    (decodeMsg m f).timersCreated = f.timersCreated ∧
    (decodeMsg m f).stats.delays_injected = f.stats.delays_injected := by
  refine ⟨?_, ?_, ?_⟩ <;>
  cases m <;>
    simp only [decodeMsg, decodeQuery, decodeGetMore, decodeInsert, decodeKillCursors,
      decodeReply, apply_ite ProxyFilter.delayTimerActive,
      apply_ite ProxyFilter.timersCreated, apply_ite ProxyFilter.stats,
      chargeQueryStats_delayTimerActive, chargeQueryStats_timersCreated,
      chargeQueryStats_stats, ite_self,
      maybeArmDelay_pending_delayTimerActive, maybeArmDelay_pending_timersCreated,
      maybeArmDelay_pending_delays_injected, h] <;>
    split_ifs <;> rfl

theorem foldlDecode_pending :
    ∀ (msgs : List Message) (f : ProxyFilter), f.delayTimerActive = true →
      (msgs.foldl (fun acc m => decodeMsg m acc) f).delayTimerActive = true ∧
      (msgs.foldl (fun acc m => decodeMsg m acc) f).timersCreated = f.timersCreated ∧
      (msgs.foldl (fun acc m => decodeMsg m acc) f).stats.delays_injected =
        f.stats.delays_injected
  | [], _, h => ⟨h, rfl, rfl⟩
  | m :: msgs, f, h => by
      obtain ⟨h1, h2, h3⟩ := decodeMsg_pending m f h
      obtain ⟨g1, g2, g3⟩ := foldlDecode_pending msgs (decodeMsg m f) h1
      exact ⟨g1, g2.trans h2, g3.trans h3⟩

theorem foldlDecode_continueReadingCalls :
    ∀ (msgs : List Message) (f : ProxyFilter),
      (msgs.foldl (fun acc m => decodeMsg m acc) f).continueReadingCalls =
        f.continueReadingCalls
  | [], _ => rfl
  | m :: msgs, f => by
      rw [List.foldl_cons, foldlDecode_continueReadingCalls msgs,
        decodeMsg_continueReadingCalls]

theorem foldlDecode_connectionCloseCalls :
    ∀ (msgs : List Message) (f : ProxyFilter),
      (msgs.foldl (fun acc m => decodeMsg m acc) f).connectionCloseCalls =
        f.connectionCloseCalls
  | [], _ => rfl
  | m :: msgs, f => by
      rw [List.foldl_cons, foldlDecode_connectionCloseCalls msgs,
        decodeMsg_connectionCloseCalls]

theorem doDecode_pending (out : DecodeOutcome) (f : ProxyFilter)
    (h : f.delayTimerActive = true) :
    (doDecode out f).delayTimerActive = true ∧
    (doDecode out f).timersCreated = f.timersCreated ∧
    (doDecode out f).stats.delays_injected = f.stats.delays_injected := by
  unfold doDecode
  split
  · exact ⟨h, rfl, rfl⟩
  · cases out with
    | messages msgs => exact foldlDecode_pending msgs _ h
    | decodeError => exact ⟨h, rfl, rfl⟩

theorem doDecode_continueReadingCalls (out : DecodeOutcome) (f : ProxyFilter) :
    (doDecode out f).continueReadingCalls = f.continueReadingCalls := by
  unfold doDecode
  split
  · rfl
  · cases out with
    | messages msgs => exact foldlDecode_continueReadingCalls msgs _
    | decodeError => rfl

theorem doDecode_connectionCloseCalls (out : DecodeOutcome) (f : ProxyFilter) :
    (doDecode out f).connectionCloseCalls = f.connectionCloseCalls := by
  unfold doDecode
  split
  · rfl
  · cases out with
    | messages msgs => exact foldlDecode_connectionCloseCalls msgs _
    | decodeError => rfl

theorem doDecode_of_not_sniffing (out : DecodeOutcome) (f : ProxyFilter)
    (h : f.sniffing = false) : doDecode out f = f := by
  unfold doDecode
  rw [if_pos (Or.inl h)]

theorem onEvent_fields (e : ConnectionEvent) (f : ProxyFilter) :
    (onEvent e f).sniffing = f.sniffing ∧
    (onEvent e f).decoderInvocations = f.decoderInvocations ∧
    (onEvent e f).stats.decoding_error = f.stats.decoding_error ∧
    (onEvent e f).connectionCloseCalls = f.connectionCloseCalls ∧
    (onEvent e f).continueReadingCalls = f.continueReadingCalls := by
  cases e <;> simp only [onEvent] <;> split_ifs <;>
    exact ⟨rfl, rfl, rfl, rfl, rfl⟩

theorem runCalls_quarantine :
    ∀ (calls : List FilterCall) (f : ProxyFilter), f.sniffing = false →
      (runCalls f calls).sniffing = false ∧
      (runCalls f calls).decoderInvocations = f.decoderInvocations ∧
      (runCalls f calls).stats.decoding_error = f.stats.decoding_error
  | [], _, h => ⟨h, rfl, rfl⟩
  | c :: calls, f, h => by
      have hstep : (applyCall f c).sniffing = false ∧
          (applyCall f c).decoderInvocations = f.decoderInvocations ∧
          (applyCall f c).stats.decoding_error = f.stats.decoding_error := by
        cases c with
        | data out =>
            have hd : applyCall f (.data out) = f := doDecode_of_not_sniffing out f h
            rw [hd]; exact ⟨h, rfl, rfl⟩
        | write out =>
            have hd : applyCall f (.write out) = f := doDecode_of_not_sniffing out f h
            rw [hd]; exact ⟨h, rfl, rfl⟩
        | timerFired => exact ⟨h, rfl, rfl⟩
        | event e =>
            obtain ⟨h1, h2, h3, _, _⟩ := onEvent_fields e f
            exact ⟨h ▸ h1, h2, h3⟩
      obtain ⟨s1, s2, s3⟩ := hstep
      obtain ⟨r1, r2, r3⟩ := runCalls_quarantine calls (applyCall f c) s1
      exact ⟨r1, r2.trans s2, r3.trans s3⟩

theorem runCalls_closeCalls :
    ∀ (calls : List FilterCall) (f : ProxyFilter),
      (runCalls f calls).connectionCloseCalls = f.connectionCloseCalls
  | [], _ => rfl
  | c :: calls, f => by
      have hstep : (applyCall f c).connectionCloseCalls = f.connectionCloseCalls := by
        cases c with
        | data out => exact doDecode_connectionCloseCalls out f
        | write out => exact doDecode_connectionCloseCalls out f
        | timerFired => rfl
        | event e => exact (onEvent_fields e f).2.2.2.1
      exact (runCalls_closeCalls calls (applyCall f c)).trans hstep

end Envoy.Mongo

/-- C4: while an injected delay is pending, `onData` always returns
`StopIteration`, arms no further timer and leaves `delays_injected`
unchanged; only the timer callback invokes `continueReading` (the
filter-chain calls never do), and the timer callback clears the pending
flag.  Includes the `DelayFaults` trace: the first query arms one timer
and counts `delays_injected = 1`; a second query and a get-more during
the delay still count (`op_query = 2`, `op_get_more = 1`) while every
`onData` returns `StopIteration` and no further timer is created; the
timer callback then performs the single `continueReading`. -/
theorem delay_pending_stop_iteration :
    (∀ (f : ProxyFilter) (out : DecodeOutcome), f.delayTimerActive = true →
      (onData out f).2 = .StopIteration ∧
      (onData out f).1.delayTimerActive = true ∧
      (onData out f).1.timersCreated = f.timersCreated ∧
      (onData out f).1.stats.delays_injected = f.stats.delays_injected) ∧
    (∀ f : ProxyFilter,
      (onDelayTimer f).continueReadingCalls = f.continueReadingCalls + 1 ∧
      (onDelayTimer f).delayTimerActive = false) ∧
    (∀ (f : ProxyFilter) (out : DecodeOutcome),
      (onData out f).1.continueReadingCalls = f.continueReadingCalls ∧
      (onWrite out f).1.continueReadingCalls = f.continueReadingCalls) ∧
    (delayStep1.2 = .StopIteration ∧ delayStep1.1.stats.op_query = 1 ∧
      delayStep1.1.stats.delays_injected = 1 ∧ delayStep1.1.timersCreated = 1 ∧
      delayStep2.2 = .StopIteration ∧ delayStep2.1.stats.op_query = 2 ∧
      delayStep2.1.stats.delays_injected = 1 ∧ delayStep2.1.timersCreated = 1 ∧
      delayStep3.2 = .StopIteration ∧ delayStep3.1.stats.op_get_more = 1 ∧
      delayStep3.1.stats.delays_injected = 1 ∧ delayStep3.1.timersCreated = 1 ∧
      delayStep4.continueReadingCalls = 1 ∧ delayStep4.delayTimerActive = false) := by
  refine ⟨?_, fun f => ⟨rfl, rfl⟩, ?_, by decide⟩
  · intro f out h
    obtain ⟨h1, h2, h3⟩ := doDecode_pending out f h
    refine ⟨?_, h1, h2, h3⟩
    show (if (doDecode out f).delayTimerActive = true then
        FilterStatus.StopIteration else FilterStatus.Continue) = FilterStatus.StopIteration
    rw [if_pos h1]
  · intro f out
    exact ⟨doDecode_continueReadingCalls out f, doDecode_continueReadingCalls out f⟩

/-- C4 witness: the pending-delay rule applied at a concrete input — the
second `onData` of the `DelayFaults` trace returns `StopIteration` and
creates no further timer. -/
theorem delay_pending_stop_iteration_wit :
    (onData (.messages [.query sampleQuery]) delayStep1.1).2 = .StopIteration ∧
    (onData (.messages [.query sampleQuery]) delayStep1.1).1.timersCreated =
      delayStep1.1.timersCreated :=
  have h := delay_pending_stop_iteration.1 delayStep1.1
    (.messages [.query sampleQuery]) (by decide)
  ⟨h.1, h.2.2.1⟩

/-- C5: a fatal decode error while the filter is still sniffing
increments `decoding_error` by one and clears the sniffing latch; from a
cleared latch, no host-call sequence ever invokes the decoder again or
changes `decoding_error` (so the counter stays at 1 for the rest of the
connection); and the filter never closes the connection itself over any
host-call sequence.  Includes the `DecodeError` trace: after the error
the counter is 1, a further `onData` does not reach the decoder and the
counter stays 1. -/
theorem decoding_error_quarantine :
    (∀ f : ProxyFilter, f.sniffing = true → f.runtimeProxyEnabled = true →
      (doDecode .decodeError f).stats.decoding_error = f.stats.decoding_error + 1 ∧
      (doDecode .decodeError f).sniffing = false) ∧
    (∀ (f : ProxyFilter) (calls : List FilterCall), f.sniffing = false →
      (runCalls f calls).sniffing = false ∧
      (runCalls f calls).decoderInvocations = f.decoderInvocations ∧
      (runCalls f calls).stats.decoding_error = f.stats.decoding_error) ∧
    (∀ (f : ProxyFilter) (calls : List FilterCall),
      (runCalls f calls).connectionCloseCalls = f.connectionCloseCalls) ∧
    ((onData .decodeError sampleFilter).1.stats.decoding_error = 1 ∧
      (onData .decodeError sampleFilter).1.sniffing = false ∧
      (onData (.messages [.query sampleQuery])
        (onData .decodeError sampleFilter).1).1.stats.decoding_error = 1 ∧
      (onData (.messages [.query sampleQuery])
        (onData .decodeError sampleFilter).1).1.decoderInvocations =
        (onData .decodeError sampleFilter).1.decoderInvocations ∧
      (onData (.messages [.query sampleQuery])
        (onData .decodeError sampleFilter).1).1.stats.op_query = 0) := by
  refine ⟨?_, ?_, ?_, by decide⟩
  · intro f h1 h2
    unfold doDecode
    rw [if_neg]
    · exact ⟨rfl, rfl⟩
    · simp [h1, h2]
  · intro f calls h
    exact runCalls_quarantine calls f h
  · intro f calls
    exact runCalls_closeCalls calls f

/-- C5 witness: the quarantine applied at a concrete input — the filter
after the decode error, run through a further data call and a close
event, still shows `decoding_error = 1` and no further decoder
invocation. -/
theorem decoding_error_quarantine_wit :
    (runCalls (onData .decodeError sampleFilter).1
        [.data (.messages [.query sampleQuery]), .event .RemoteClose]).decoderInvocations =
      (onData .decodeError sampleFilter).1.decoderInvocations ∧
    (runCalls (onData .decodeError sampleFilter).1
        [.data (.messages [.query sampleQuery]), .event .RemoteClose]).stats.decoding_error =
      (onData .decodeError sampleFilter).1.stats.decoding_error :=
  have h := decoding_error_quarantine.2.1 (onData .decodeError sampleFilter).1
    [.data (.messages [.query sampleQuery]), .event .RemoteClose] (by decide)
  ⟨h.2.1, h.2.2⟩

namespace Envoy.Mongo

@[simp]
theorem maybeArmDelay_op_query_tailable_cursor (f : ProxyFilter) :
    (maybeArmDelay f).stats.op_query_tailable_cursor = f.stats.op_query_tailable_cursor := by
  unfold maybeArmDelay; split <;> rfl

@[simp]
theorem maybeArmDelay_op_query_no_cursor_timeout (f : ProxyFilter) :
    (maybeArmDelay f).stats.op_query_no_cursor_timeout = f.stats.op_query_no_cursor_timeout := by
  unfold maybeArmDelay; split <;> rfl

@[simp]
theorem maybeArmDelay_op_query_await_data (f : ProxyFilter) :
    (maybeArmDelay f).stats.op_query_await_data = f.stats.op_query_await_data := by
  unfold maybeArmDelay; split <;> rfl

@[simp]
theorem maybeArmDelay_op_query_exhaust (f : ProxyFilter) :
    (maybeArmDelay f).stats.op_query_exhaust = f.stats.op_query_exhaust := by
  unfold maybeArmDelay; split <;> rfl

@[simp]
theorem maybeArmDelay_op_query_no_max_time (f : ProxyFilter) :
    (maybeArmDelay f).stats.op_query_no_max_time = f.stats.op_query_no_max_time := by
  unfold maybeArmDelay; split <;> rfl

@[simp]
theorem maybeArmDelay_op_query_scatter_get (f : ProxyFilter) :
    (maybeArmDelay f).stats.op_query_scatter_get = f.stats.op_query_scatter_get := by
  unfold maybeArmDelay; split <;> rfl

theorem queryType_of_no_id {q : BsonDocument} (hid : hasKey q "_id" = false) :
    queryType q = .scatterGet := by
  unfold hasKey at hid
  unfold queryType
  cases hf : findKey q "_id" with
  | none => rfl
  | some v => rw [hf] at hid; simp at hid

end Envoy.Mongo

/-- C6: decoding an `OP_QUERY` on `db.test` with flags `0b1110010` whose
query document lacks both `$maxTimeMS` and a shard key (`_id`)
increments each of `op_query`, `op_query_tailable_cursor`,
`op_query_no_cursor_timeout`, `op_query_await_data`, `op_query_exhaust`,
`op_query_no_max_time`, `op_query_scatter_get`,
`collection.test.query.total` and `collection.test.query.scatter_get`
(under the configured prefix `test.`) by exactly 1; and when
`$maxTimeMS` is present, `op_query_no_max_time` does not change. -/
theorem query_stats_increments :
    (∀ (f : ProxyFilter) (rid : Int) (q : BsonDocument),
      f.statTag = "test." →
      hasKey q "$maxTimeMS" = false →
      hasKey q "_id" = false →
      ((decodeQuery (queryOn rid 114 "db.test" q) f).stats.op_query =
          f.stats.op_query + 1 ∧
        (decodeQuery (queryOn rid 114 "db.test" q) f).stats.op_query_tailable_cursor =
          f.stats.op_query_tailable_cursor + 1 ∧
        (decodeQuery (queryOn rid 114 "db.test" q) f).stats.op_query_no_cursor_timeout =
          f.stats.op_query_no_cursor_timeout + 1 ∧
        (decodeQuery (queryOn rid 114 "db.test" q) f).stats.op_query_await_data =
          f.stats.op_query_await_data + 1 ∧
        (decodeQuery (queryOn rid 114 "db.test" q) f).stats.op_query_exhaust =
          f.stats.op_query_exhaust + 1 ∧
        (decodeQuery (queryOn rid 114 "db.test" q) f).stats.op_query_no_max_time =
          f.stats.op_query_no_max_time + 1 ∧
        (decodeQuery (queryOn rid 114 "db.test" q) f).stats.op_query_scatter_get =
          f.stats.op_query_scatter_get + 1 ∧
        dynCounter (decodeQuery (queryOn rid 114 "db.test" q) f)
            "test.collection.test.query.total" =
          dynCounter f "test.collection.test.query.total" + 1 ∧
        dynCounter (decodeQuery (queryOn rid 114 "db.test" q) f)
            "test.collection.test.query.scatter_get" =
          dynCounter f "test.collection.test.query.scatter_get" + 1)) ∧
    (∀ (f : ProxyFilter) (rid : Int) (q : BsonDocument),
      hasKey q "$maxTimeMS" = true →
      (decodeQuery (queryOn rid 114 "db.test" q) f).stats.op_query_no_max_time =
        f.stats.op_query_no_max_time) := by
  constructor
  · intro f rid q htag hmax hid
    have hqt := queryType_of_no_id hid
    simp [dynCounter, queryOn, decodeQuery, chargeQueryStats, hqt, htag, hmax,
      List.count_cons,
      show collectionOf "db.test" = "test" from rfl,
      show ("test" == "$cmd") = false from rfl,
      show Nat.testBit 114 1 = true from rfl,
      show Nat.testBit 114 4 = true from rfl,
      show Nat.testBit 114 5 = true from rfl,
      show Nat.testBit 114 6 = true from rfl,
      show (("test." ++ "collection." ++ "test" ++ ".query") ++ ".scatter_get" ==
        "test.collection.test.query.total") = false from rfl,
      show (("test." ++ "collection." ++ "test" ++ ".query") ++ ".total" ==
        "test.collection.test.query.total") = true from rfl,
      show (("test." ++ "collection." ++ "test" ++ ".query") ++ ".scatter_get" ==
        "test.collection.test.query.scatter_get") = true from rfl,
      show (("test." ++ "collection." ++ "test" ++ ".query") ++ ".total" ==
        "test.collection.test.query.scatter_get") = false from rfl]
  · intro f rid q hmax
    simp [queryOn, decodeQuery, chargeQueryStats, hmax,
      apply_ite ProxyFilter.stats, ite_self]

/-- C6 witness: the stat-derivation rule applied at a concrete input —
the empty query document on a fresh filter takes `op_query` and both
collection counters from 0 to 1. -/
theorem query_stats_increments_wit :
    (decodeQuery (queryOn 0 114 "db.test" []) sampleFilter).stats.op_query =
      sampleFilter.stats.op_query + 1 ∧
    dynCounter (decodeQuery (queryOn 0 114 "db.test" []) sampleFilter)
        "test.collection.test.query.scatter_get" =
      dynCounter sampleFilter "test.collection.test.query.scatter_get" + 1 :=
  have h := query_stats_increments.1 sampleFilter 0 [] rfl rfl rfl
  ⟨h.1, h.2.2.2.2.2.2.2.2⟩

namespace Envoy.Mongo

theorem string_append_right_cancel {p a b : String} (h : p ++ a = p ++ b) :
    a = b := by
  apply String.ext
  have hd := congrArg String.data h
  simp only [String.data_append] at hd
  exact List.append_cancel_left hd

end Envoy.Mongo

/-- C10: an `OP_QUERY` against a non-`$cmd` collection whose query
document binds `_id` to a document holding an `$in` array increments the
collection-level counter `collection.<coll>.query.multi_get` (under the
configured prefix) in addition to the global `op_query_multi_get`. -/
theorem multi_get_collection_counter
    (f : ProxyFilter) (rid : Int) (full coll : String) (q : BsonDocument)
    (v : BsonValue)
    (htag : f.statTag = "test.")
    (hfull : collectionOf full = coll)
    (hcmd : (coll == "$cmd") = false)
    (hfind : findKey q "_id" = some v)
    (hin : hasInKey v = true) :
    (decodeQuery (queryOn rid 114 full q) f).stats.op_query_multi_get =
      f.stats.op_query_multi_get + 1 ∧
    dynCounter (decodeQuery (queryOn rid 114 full q) f)
        ("test." ++ "collection." ++ coll ++ ".query" ++ ".multi_get") =
      dynCounter f ("test." ++ "collection." ++ coll ++ ".query" ++ ".multi_get") + 1 := by
  have hqt : queryType q = .multiGet := by
    unfold queryType; rw [hfind]; simp [hin]
  have hne : ∀ p : String, ¬(p ++ ".total" = p ++ ".multi_get") := by
    intro p he
    exact absurd (string_append_right_cancel he) (by decide)
  simp [dynCounter, queryOn, decodeQuery, chargeQueryStats, hqt, htag, hfull, hcmd,
    List.count_cons, beq_eq_false_iff_ne, hne]

/-- C10 witness: the multi-get rule applied at a concrete input — the
`MultiGet` test's query on a fresh filter raises both counters from 0 to
1. -/
theorem multi_get_collection_counter_wit :
    (decodeQuery (queryOn 0 114 "db.test" sampleMultiGetQuery.query) sampleFilter).stats.op_query_multi_get =
      sampleFilter.stats.op_query_multi_get + 1 ∧
    dynCounter (decodeQuery (queryOn 0 114 "db.test" sampleMultiGetQuery.query) sampleFilter)
        ("test." ++ "collection." ++ "test" ++ ".query" ++ ".multi_get") =
      dynCounter sampleFilter ("test." ++ "collection." ++ "test" ++ ".query" ++ ".multi_get") + 1 :=
  multi_get_collection_counter sampleFilter 0 "db.test" "test"
    sampleMultiGetQuery.query (BsonValue.doc [("$in", BsonValue.arr [])])
    rfl rfl rfl rfl rfl
